import Mathlib

/-!
Verification of the `DIContainer` service registry from the repository's
dependency-inversion demo (src/unnamed/part_000, class `DIContainer`).

The source (TypeScript):

  class DIContainer {
    private services = new Map<string, any>();
    register<T>(name: string, service: T): void {
      this.services.set(name, service);
    }
    get<T>(name: string): T {
      const service = this.services.get(name);
      if (!service) {
        throw new Error(`Service $\x7bname\x7d not found`);
      }
      return service;
    }
  }

Shallow embedding choices:
* JavaScript runtime values are modelled by `JSValue`; the JS truthiness
  test `!service` is modelled by `JSValue.truthy` (objects are always
  truthy; `undefined`, `null`, `false`, `0` and the empty string are falsy).
  Numbers are modelled by `Int`, which suffices for every claim (the only
  number the truthiness coercion distinguishes is zero).
* The `Map<string, any>` field is modelled by an association list together
  with `mapSet` (the semantics of `Map.prototype.set`: replace in place if
  the key is present, else append) and `mapGet?` (the semantics of
  `Map.prototype.get`: value of the first matching entry, `none` if absent;
  the source then coerces the absent case to `undefined` via `getD`).
* The throwing method `get` is embedded as an `Except` value; the thrown
  `Error` carries the missing key (`DIError.notFound`, whose rendered
  message is `DIError.message`).
* `DIContainer.getCall` is the same method viewed as a state transformer
  (result together with the post-state of the mutable object), used for the
  read-only / atomic-failure claims.
-/

/-- A JavaScript runtime value, as far as the registry is concerned:
`undefined`, `null`, booleans, numbers (modelled by `Int`), strings, and
object references (identified by an id; the registry stores references,
never copies). -/
inductive JSValue where
  | undef : JSValue
  | null : JSValue
  | bool : Bool → JSValue
  | num : Int → JSValue
  | str : String → JSValue
  | obj : Nat → JSValue
deriving DecidableEq, Repr

/-- JavaScript truthiness, the semantics of the source's `if (!service)`
test: `undefined`, `null`, `false`, `0` and `""` are falsy, everything
else (in particular every object) is truthy. -/
def JSValue.truthy : JSValue → Bool
  | .undef => false
  | .null => false
  | .bool b => b
  | .num n => n != 0
  | .str s => s != ""
  | .obj _ => true

/-- `Map.prototype.set`: if the key is already present, replace the value
of its (unique, first) entry in place; otherwise append a new entry. -/
def mapSet : List (String × JSValue) → String → JSValue → List (String × JSValue)
  | [], k, v => [(k, v)]
  | (k', v') :: rest, k, v =>
      if k' = k then (k, v) :: rest else (k', v') :: mapSet rest k v

/-- `Map.prototype.get`, before the JS coercion of the absent case to
`undefined`: the value of the first entry matching the key. -/
def mapGet? : List (String × JSValue) → String → Option JSValue
  | [], _ => none
  | (k', v') :: rest, k => if k' = k then some v' else mapGet? rest k

/-- The error thrown by `DIContainer.get`: the source throws
`new Error` with a message naming the missing key, so the error carries
the key. -/
inductive DIError where
  | notFound : String → DIError
deriving DecidableEq, Repr

/-- The message string of the thrown error, as built by the source's
template literal. -/
def DIError.message : DIError → String
  | .notFound key => "Service " ++ key ++ " not found"

/-- The dependency-injection container: a single private field
`services = new Map<string, any>()`. -/
structure DIContainer where
  services : List (String × JSValue)
deriving DecidableEq, Repr

/-- A freshly constructed container: the `Map` starts empty. -/
def DIContainer.empty : DIContainer := ⟨[]⟩

/-- `register<T>(name, service) { this.services.set(name, service); }` -/
def DIContainer.register (c : DIContainer) (name : String) (service : JSValue) :
    DIContainer :=
  ⟨mapSet c.services name service⟩

/-- `get<T>(name)`: look the name up in the map (absent keys read as
`undefined`), throw `notFound` if the result is falsy, return it
otherwise. -/
def DIContainer.get (c : DIContainer) (name : String) : Except DIError JSValue :=
  let service := (mapGet? c.services name).getD JSValue.undef
  if ! service.truthy then Except.error (DIError.notFound name)
  else Except.ok service

/-- `get` viewed as a call on the mutable object: the result paired with
the state of the container after the call returns or throws.  The body
only reads `this.services`, so the post-state is the receiver in both
branches. -/
def DIContainer.getCall (c : DIContainer) (name : String) :
    Except DIError JSValue × DIContainer :=
  let service := (mapGet? c.services name).getD JSValue.undef
  if ! service.truthy then (Except.error (DIError.notFound name), c)
  else (Except.ok service, c)

/-- Running a sequence of `register` calls against a container, in order.
Used to talk about the states reachable from a fresh container. -/
def runRegisters (c : DIContainer) (ops : List (String × JSValue)) : DIContainer :=
  ops.foldl (fun acc p => acc.register p.1 p.2) c

/-! ### Lemmas about the map model -/

theorem mapGet?_mapSet_self (m : List (String × JSValue)) (k : String) (v : JSValue) :
    mapGet? (mapSet m k v) k = some v := by
  induction m with
  | nil => simp [mapSet, mapGet?]
  | cons p rest ih =>
      obtain ⟨k', v'⟩ := p
      by_cases h : k' = k
      · simp [mapSet, mapGet?, h]
      · simp [mapSet, mapGet?, h, ih]

theorem mapGet?_mapSet_ne (m : List (String × JSValue)) (k q : String) (v : JSValue)
    (hne : q ≠ k) : mapGet? (mapSet m k v) q = mapGet? m q := by
  have hkq : ¬ k = q := fun h => hne h.symm
  induction m with
  | nil =>
      simp only [mapSet, mapGet?]
      rw [if_neg hkq]
  | cons p rest ih =>
      obtain ⟨k', v'⟩ := p
      by_cases h : k' = k
      · subst h
        simp [mapSet, mapGet?, hkq]
      · by_cases h2 : k' = q
        · subst h2
          simp [mapSet, mapGet?, h]
        · simp [mapSet, mapGet?, h, h2, ih]

theorem mem_keys_mapSet (m : List (String × JSValue)) (k : String) (v : JSValue)
    (q : String) :
    q ∈ (mapSet m k v).map Prod.fst ↔ q = k ∨ q ∈ m.map Prod.fst := by
  induction m with
  | nil => simp [mapSet]
  | cons p rest ih =>
      obtain ⟨k', v'⟩ := p
      by_cases h : k' = k
      · subst h
        constructor
        · intro hmem
          simp [mapSet] at hmem ⊢
          tauto
        · intro hmem
          simp [mapSet] at hmem ⊢
          tauto
      · constructor
        · intro hmem
          simp [mapSet, h, ih] at hmem ⊢
          tauto
        · intro hmem
          simp [mapSet, h, ih] at hmem ⊢
          tauto

theorem nodup_keys_mapSet (m : List (String × JSValue)) (k : String) (v : JSValue)
    (h : (m.map Prod.fst).Nodup) : ((mapSet m k v).map Prod.fst).Nodup := by
  induction m with
  | nil => simp [mapSet]
  | cons p rest ih =>
      obtain ⟨k', v'⟩ := p
      simp only [List.map_cons, List.nodup_cons] at h
      by_cases hk : k' = k
      · subst hk
        simpa [mapSet, List.nodup_cons] using h
      · simp only [mapSet, hk, if_false, List.map_cons, List.nodup_cons]
        refine ⟨?_, ih h.2⟩
        intro hmem
        rcases (mem_keys_mapSet rest k v k').mp hmem with h1 | h1
        · exact hk h1
        · exact h.1 h1

/-! ### Lemmas about `get` and reachable states -/

theorem get_eq_ok (c : DIContainer) (k : String) (v : JSValue)
    (h : mapGet? c.services k = some v) (ht : v.truthy = true) :
    c.get k = Except.ok v := by
  simp [DIContainer.get, h, ht]

theorem get_eq_error_of_none (c : DIContainer) (k : String)
    (h : mapGet? c.services k = none) :
    c.get k = Except.error (DIError.notFound k) := by
  simp [DIContainer.get, h, JSValue.truthy]

theorem get_eq_error_of_falsy (c : DIContainer) (k : String) (v : JSValue)
    (h : mapGet? c.services k = some v) (ht : v.truthy = false) :
    c.get k = Except.error (DIError.notFound k) := by
  simp [DIContainer.get, h, ht]

theorem runRegisters_not_mem (ops : List (String × JSValue)) (c : DIContainer)
    (k : String) (h : k ∉ ops.map Prod.fst) :
    mapGet? (runRegisters c ops).services k = mapGet? c.services k := by
  induction ops generalizing c with
  | nil => rfl
  | cons p rest ih =>
      obtain ⟨k0, v0⟩ := p
      simp only [List.map_cons, List.mem_cons] at h
      push_neg at h
      have := ih (c.register k0 v0) h.2
      simp only [runRegisters, List.foldl_cons] at *
      rw [this]
      exact mapGet?_mapSet_ne c.services k0 k v0 h.1

theorem runRegisters_mem_nodup (ops : List (String × JSValue)) (c : DIContainer)
    (k : String) (v : JSValue) (hnd : (ops.map Prod.fst).Nodup)
    (hmem : (k, v) ∈ ops) :
    mapGet? (runRegisters c ops).services k = some v := by
  induction ops generalizing c with
  | nil => cases hmem
  | cons p rest ih =>
      obtain ⟨k0, v0⟩ := p
      simp only [List.map_cons, List.nodup_cons] at hnd
      rcases List.mem_cons.mp hmem with h | h
      · injection h with h1 h2
        subst h1
        subst h2
        have hnotin : k ∉ rest.map Prod.fst := hnd.1
        simp only [runRegisters, List.foldl_cons]
        have hskip := runRegisters_not_mem rest (c.register k v) k hnotin
        simp only [runRegisters] at hskip
        rw [hskip]
        exact mapGet?_mapSet_self c.services k v
      · simp only [runRegisters, List.foldl_cons]
        exact ih (c.register k0 v0) hnd.2 h

theorem getCall_snd (c : DIContainer) (k : String) : (c.getCall k).2 = c := by
  by_cases h : ((mapGet? c.services k).getD JSValue.undef).truthy
  · simp [DIContainer.getCall, h]
  · simp [DIContainer.getCall, h]

theorem nodup_keys_runRegisters (ops : List (String × JSValue)) (c : DIContainer)
    (h : (c.services.map Prod.fst).Nodup) :
    ((runRegisters c ops).services.map Prod.fst).Nodup := by
  induction ops generalizing c with
  | nil => exact h
  | cons p rest ih =>
      simp only [runRegisters, List.foldl_cons]
      exact ih (c.register p.1 p.2) (nodup_keys_mapSet c.services p.1 p.2 h)

/-! ### Claims -/

/-- C1 (amended): for every key `k` and every truthy value `v`, immediately
after `register k v` the call `get k` returns exactly the registered value
`v`. -/
theorem register_get_roundtrip (c : DIContainer) (k : String) (v : JSValue)
    (ht : v.truthy = true) :
    (c.register k v).get k = Except.ok v :=
  get_eq_ok (c.register k v) k v (mapGet?_mapSet_self c.services k v) ht

/-- Witness for C1: a concrete object registered under `"db"` is returned
by `get "db"`. -/
theorem register_get_roundtrip_witness :
    (DIContainer.empty.register "db" (JSValue.obj 0)).get "db"
      = Except.ok (JSValue.obj 0) :=
  register_get_roundtrip DIContainer.empty "db" (JSValue.obj 0) rfl

/-- Counterexample to C1 as stated: `null` is a value, yet after
`register "db" null` the call `get "db"` throws the not-found error instead
of returning `null`. -/
theorem register_get_roundtrip_cex :
    (DIContainer.empty.register "db" JSValue.null).get "db"
        = Except.error (DIError.notFound "db")
      ∧ (DIContainer.empty.register "db" JSValue.null).get "db"
        ≠ Except.ok JSValue.null := by
  constructor
  · rfl
  · intro h
    exact Except.noConfusion h

/-- C2: for every key `k` never registered along any sequence of `register`
calls starting from a fresh container, `get k` fails with the not-found
error carrying `k`; it does not return a value. -/
theorem get_never_registered (ops : List (String × JSValue)) (k : String)
    (h : k ∉ ops.map Prod.fst) :
    (runRegisters DIContainer.empty ops).get k
      = Except.error (DIError.notFound k) := by
  apply get_eq_error_of_none
  rw [runRegisters_not_mem ops DIContainer.empty k h]
  rfl

/-- Witness for C2: with only `"db"` registered, `get "missing"` fails with
the not-found error carrying `"missing"`. -/
theorem get_never_registered_witness :
    (runRegisters DIContainer.empty [("db", JSValue.obj 0)]).get "missing"
      = Except.error (DIError.notFound "missing") :=
  get_never_registered [("db", JSValue.obj 0)] "missing" (by decide)

/-- C3 (amended): `register k v1` then `register k v2` then `get k` returns
`v2` whenever `v2` is truthy (last-write-wins), and `register` has no error
path (it is a total function in this embedding, mirroring `Map.set`, which
never throws). -/
theorem register_last_write_wins (c : DIContainer) (k : String)
    (v1 v2 : JSValue) (ht : v2.truthy = true) :
    ((c.register k v1).register k v2).get k = Except.ok v2 :=
  get_eq_ok ((c.register k v1).register k v2) k v2
    (mapGet?_mapSet_self (mapSet c.services k v1) k v2) ht

/-- Witness for C3: re-registering `"db"` makes `get "db"` return the
second object. -/
theorem register_last_write_wins_witness :
    ((DIContainer.empty.register "db" (JSValue.obj 0)).register "db"
        (JSValue.obj 1)).get "db" = Except.ok (JSValue.obj 1) :=
  register_last_write_wins DIContainer.empty "db" (JSValue.obj 0)
    (JSValue.obj 1) rfl

/-- Counterexample to C3 as stated: with `v2 = 0` (a value), the sequence
`register "db" A; register "db" 0; get "db"` throws the not-found error
instead of returning `0`. -/
theorem register_last_write_wins_cex :
    ((DIContainer.empty.register "db" (JSValue.obj 0)).register "db"
        (JSValue.num 0)).get "db" = Except.error (DIError.notFound "db")
      ∧ ((DIContainer.empty.register "db" (JSValue.obj 0)).register "db"
        (JSValue.num 0)).get "db" ≠ Except.ok (JSValue.num 0) := by
  constructor
  · rfl
  · intro h
    exact Except.noConfusion h

/-- C4 (amended): for distinct keys `k1 ≠ k2` and truthy values `v1, v2`,
after `register k1 v1` and `register k2 v2`, `get k1` returns `v1` and
`get k2` returns `v2`: registering one key leaves the other key's mapping
unchanged. -/
theorem register_distinct_keys_frame (c : DIContainer) (k1 k2 : String)
    (v1 v2 : JSValue) (hne : k1 ≠ k2)
    (h1 : v1.truthy = true) (h2 : v2.truthy = true) :
    ((c.register k1 v1).register k2 v2).get k1 = Except.ok v1
    ∧ ((c.register k1 v1).register k2 v2).get k2 = Except.ok v2 := by
  refine ⟨?_, ?_⟩
  · apply get_eq_ok _ _ _ ?_ h1
    show mapGet? (mapSet (mapSet c.services k1 v1) k2 v2) k1 = some v1
    rw [mapGet?_mapSet_ne (mapSet c.services k1 v1) k2 k1 v2 hne]
    exact mapGet?_mapSet_self c.services k1 v1
  · exact get_eq_ok _ _ _
      (mapGet?_mapSet_self (mapSet c.services k1 v1) k2 v2) h2

/-- Witness for C4: `"db"` and `"cache"` registrations do not interfere. -/
theorem register_distinct_keys_frame_witness :
    ((DIContainer.empty.register "db" (JSValue.obj 0)).register "cache"
        (JSValue.obj 1)).get "db" = Except.ok (JSValue.obj 0)
    ∧ ((DIContainer.empty.register "db" (JSValue.obj 0)).register "cache"
        (JSValue.obj 1)).get "cache" = Except.ok (JSValue.obj 1) :=
  register_distinct_keys_frame DIContainer.empty "db" "cache"
    (JSValue.obj 0) (JSValue.obj 1) (by decide) rfl rfl

/-- Counterexample to C4 as stated: with `v1 = ""` (a value) under key
`"a"` and an object under the distinct key `"b"`, `get "a"` throws the
not-found error instead of returning `""`. -/
theorem register_distinct_keys_frame_cex :
    ((DIContainer.empty.register "a" (JSValue.str "")).register "b"
        (JSValue.obj 0)).get "a" = Except.error (DIError.notFound "a")
      ∧ ((DIContainer.empty.register "a" (JSValue.str "")).register "b"
        (JSValue.obj 0)).get "a" ≠ Except.ok (JSValue.str "") := by
  constructor
  · rfl
  · intro h
    exact Except.noConfusion h

/-- C5: the spec's concrete scenario, for arbitrary object instances `A`,
`B`, `C`: after registering `"db" ↦ A` and `"cache" ↦ B`, `get "db"`
returns `A`; `get "missing"` fails with not-found carrying `"missing"`;
after re-registering `"db" ↦ C`, `get "db"` returns `C` and `get "cache"`
still returns `B`. -/
theorem demo_scenario (ia ib ic : Nat) :
    ((DIContainer.empty.register "db" (JSValue.obj ia)).register "cache"
        (JSValue.obj ib)).get "db" = Except.ok (JSValue.obj ia)
    ∧ ((DIContainer.empty.register "db" (JSValue.obj ia)).register "cache"
        (JSValue.obj ib)).get "missing"
        = Except.error (DIError.notFound "missing")
    ∧ (((DIContainer.empty.register "db" (JSValue.obj ia)).register "cache"
        (JSValue.obj ib)).register "db" (JSValue.obj ic)).get "db"
        = Except.ok (JSValue.obj ic)
    ∧ (((DIContainer.empty.register "db" (JSValue.obj ia)).register "cache"
        (JSValue.obj ib)).register "db" (JSValue.obj ic)).get "cache"
        = Except.ok (JSValue.obj ib) := by
  refine ⟨?_, ?_, ?_, ?_⟩ <;>
    simp [DIContainer.empty, DIContainer.register, DIContainer.get,
      mapSet, mapGet?, JSValue.truthy]

/-- C6 (amended): for a list of registrations with pairwise-distinct keys
and truthy values, registering them in any order yields, for each pair
`(k, v)` in the list, `get k = ok v`; and a query leaves the container
unchanged, so the query order is irrelevant as well. -/
theorem register_order_independent (ops ops' : List (String × JSValue))
    (k : String) (v : JSValue)
    (hnd : (ops.map Prod.fst).Nodup) (hp : ops'.Perm ops)
    (hmem : (k, v) ∈ ops) (ht : v.truthy = true) :
    (runRegisters DIContainer.empty ops').get k = Except.ok v
    ∧ ((runRegisters DIContainer.empty ops').getCall k).2
        = runRegisters DIContainer.empty ops' := by
  have hnd' : (ops'.map Prod.fst).Nodup := ((hp.map Prod.fst).symm).nodup hnd
  have hmem' : (k, v) ∈ ops' := hp.mem_iff.mpr hmem
  exact ⟨get_eq_ok _ k v
      (runRegisters_mem_nodup ops' DIContainer.empty k v hnd' hmem') ht,
    getCall_snd _ k⟩

/-- Witness for C6: two registrations in either order give `get "db"` the
same registered object. -/
theorem register_order_independent_witness :
    (runRegisters DIContainer.empty
        [("cache", JSValue.obj 1), ("db", JSValue.obj 0)]).get "db"
      = Except.ok (JSValue.obj 0)
    ∧ ((runRegisters DIContainer.empty
        [("cache", JSValue.obj 1), ("db", JSValue.obj 0)]).getCall "db").2
      = runRegisters DIContainer.empty
        [("cache", JSValue.obj 1), ("db", JSValue.obj 0)] :=
  register_order_independent
    [("db", JSValue.obj 0), ("cache", JSValue.obj 1)]
    [("cache", JSValue.obj 1), ("db", JSValue.obj 0)]
    "db" (JSValue.obj 0) (by decide) (by decide) (by decide) rfl

/-- Counterexample to C6 as stated: the one-element set `{("db", 0)}` has
distinct keys, yet querying `"db"` after registering it yields the
not-found error, not the registered value `0`. -/
theorem register_order_independent_cex :
    (runRegisters DIContainer.empty [("db", JSValue.num 0)]).get "db"
        = Except.error (DIError.notFound "db")
      ∧ (runRegisters DIContainer.empty [("db", JSValue.num 0)]).get "db"
        ≠ Except.ok (JSValue.num 0) := by
  constructor
  · rfl
  · intro h
    exact Except.noConfusion h

/-- C7: every container reachable from a fresh one by `register` calls has
pairwise-distinct keys (each key maps to at most one currently-registered
value, or is absent); `register` preserves this invariant and `get` leaves
the state untouched; and `get` on an absent key is the not-found error,
never a silently returned default. -/
theorem registry_invariant (ops : List (String × JSValue)) (k k2 : String)
    (v2 : JSValue)
    (habs : mapGet? (runRegisters DIContainer.empty ops).services k = none) :
    (((runRegisters DIContainer.empty ops).services.map Prod.fst).Nodup)
    ∧ ((((runRegisters DIContainer.empty ops).register k2 v2).services.map
        Prod.fst).Nodup)
    ∧ (((runRegisters DIContainer.empty ops).getCall k2).2
        = runRegisters DIContainer.empty ops)
    ∧ ((runRegisters DIContainer.empty ops).get k
        = Except.error (DIError.notFound k)) := by
  have hinv := nodup_keys_runRegisters ops DIContainer.empty
    (by simp [DIContainer.empty])
  exact ⟨hinv, nodup_keys_mapSet _ k2 v2 hinv, getCall_snd _ k2,
    get_eq_error_of_none _ k habs⟩

/-- Witness for C7: concrete reachable state with one registration. -/
theorem registry_invariant_witness :
    (((runRegisters DIContainer.empty
        [("db", JSValue.obj 0)]).services.map Prod.fst).Nodup)
    ∧ ((((runRegisters DIContainer.empty
        [("db", JSValue.obj 0)]).register "cache"
          (JSValue.obj 1)).services.map Prod.fst).Nodup)
    ∧ (((runRegisters DIContainer.empty
        [("db", JSValue.obj 0)]).getCall "cache").2
        = runRegisters DIContainer.empty [("db", JSValue.obj 0)])
    ∧ ((runRegisters DIContainer.empty [("db", JSValue.obj 0)]).get "missing"
        = Except.error (DIError.notFound "missing")) :=
  registry_invariant [("db", JSValue.obj 0)] "missing" "cache"
    (JSValue.obj 1) (by decide)

/-- C8: `register` always completes, returning the container whose map is
the updated one (its embedding needs no error type because `Map.set` has no
error path), and whenever `get q` fails, the error is exactly the not-found
error carrying the queried key `q` — the only error path in the core. -/
theorem register_total_notFound_only (c : DIContainer) (k q : String)
    (v : JSValue) (e : DIError) (herr : c.get q = Except.error e) :
    (c.register k v).services = mapSet c.services k v
    ∧ e = DIError.notFound q := by
  refine ⟨rfl, ?_⟩
  simp only [DIContainer.get] at herr
  split at herr
  · injection herr with h
    exact h.symm
  · exact Except.noConfusion herr

/-- Witness for C8: `get "missing"` on a fresh container errs with
not-found carrying `"missing"`, and a registration produces the updated
map. -/
theorem register_total_notFound_only_witness :
    (DIContainer.empty.register "db" (JSValue.obj 0)).services
      = mapSet DIContainer.empty.services "db" (JSValue.obj 0)
    ∧ DIError.notFound "missing" = DIError.notFound "missing" :=
  register_total_notFound_only DIContainer.empty "db" "missing"
    (JSValue.obj 0) (DIError.notFound "missing") rfl

/-- C9: `get` is read-only and its failure is atomic: viewed as a call on
the mutable container, `get k` produces exactly the value of the pure
lookup and leaves the container state unchanged, whether it returns a
value or throws. -/
theorem get_read_only (c : DIContainer) (k : String) :
    c.getCall k = (c.get k, c) := by
  by_cases h : ((mapGet? c.services k).getD JSValue.undef).truthy
  · simp [DIContainer.getCall, DIContainer.get, h]
  · simp [DIContainer.getCall, DIContainer.get, h]

/-- C10: registering a falsy value (undefined, null, false, 0, "") under
`k` leaves `k` present in the underlying map, yet `get k` raises the
not-found error, because the source tests presence with the truthiness
check `if (!service)` rather than `Map.has`. -/
theorem falsy_registered_raises (c : DIContainer) (k : String) (v : JSValue)
    (hf : v.truthy = false) :
    mapGet? (c.register k v).services k = some v
    ∧ (c.register k v).get k = Except.error (DIError.notFound k) := by
  have hsome : mapGet? (c.register k v).services k = some v :=
    mapGet?_mapSet_self c.services k v
  exact ⟨hsome, get_eq_error_of_falsy _ k v hsome hf⟩

/-- Witness for C10: `null` registered under `"db"` is in the map, yet
`get "db"` raises not-found. -/
theorem falsy_registered_raises_witness :
    mapGet? (DIContainer.empty.register "db" JSValue.null).services "db"
      = some JSValue.null
    ∧ (DIContainer.empty.register "db" JSValue.null).get "db"
      = Except.error (DIError.notFound "db") :=
  falsy_registered_raises DIContainer.empty "db" JSValue.null rfl
